import Mathlib

/-!
Shallow embedding of the analytics core of the `yinizai` ml_service
(feature engineering, heuristic difficulty scoring, model registry), with
theorems settling the frozen claims about it.

Numbers are embedded as rationals (`ℚ`); Python dictionaries with a fixed
key set become structures with `Option` fields (`none` = key absent), and
dynamically keyed feature dictionaries become association lists
`List (String × ℚ)` in insertion order.
-/

namespace Yinizai

/-! ## `app/utils/performance_difficulty_analyzer.py` -/

/-- The nested threshold dictionary `self.difficulty_thresholds` built in
`PerformanceBasedDifficultyAnalyzer.__init__`, flattened: the keys of
`score_thresholds`, `variance_thresholds` and `time_thresholds`. -/
structure DifficultyThresholds where
  score_easy : ℚ
  score_medium_high : ℚ
  score_medium : ℚ
  score_medium_low : ℚ
  score_hard : ℚ
  variance_low : ℚ
  variance_medium : ℚ
  variance_high : ℚ
  time_quick : ℚ
  time_normal : ℚ
  time_slow : ℚ
  time_very_slow : ℚ
deriving Repr, DecidableEq

/-- The threshold values from `__init__`. -/
def difficulty_thresholds : DifficultyThresholds where
  score_easy := 8/10
  score_medium_high := 65/100
  score_medium := 5/10
  score_medium_low := 35/100
  score_hard := 35/100
  variance_low := 15/100
  variance_medium := 25/100
  variance_high := 35/100
  time_quick := 60
  time_normal := 180
  time_slow := 300
  time_very_slow := 600

/-- The `performance_data` dictionary passed to
`calculate_question_difficulty`: every key may be absent (the function reads
each with `performance_data.get(key, 0)`). -/
structure PerformanceData where
  avg_score_ratio : Option ℚ := none
  score_std : Option ℚ := none
  avg_time : Option ℚ := none
  time_std : Option ℚ := none
  total_attempts : Option ℚ := none
  pass_rate : Option ℚ := none
deriving Repr, DecidableEq

/-- The `performance_metrics` sub-dictionary of the result of
`calculate_question_difficulty` (an echo of the inputs). -/
structure PerformanceMetrics where
  avg_score : ℚ
  score_variance : ℚ
  avg_completion_time : ℚ
  time_variance : ℚ
  pass_rate : ℚ
  sample_size : ℚ
deriving Repr, DecidableEq

/-- The `difficulty_factors` sub-dictionary of the result of
`calculate_question_difficulty`. -/
structure DifficultyFactors where
  score_based : String
  variance_penalty : ℚ
  time_penalty : ℚ
deriving Repr, DecidableEq

/-- The dictionary returned by `calculate_question_difficulty`. -/
structure DifficultyAnalysis where
  calculated_difficulty : String
  difficulty_score : ℚ
  confidence : ℚ
  base_difficulty : String
  performance_metrics : PerformanceMetrics
  difficulty_factors : DifficultyFactors
  insights : List String
deriving Repr, DecidableEq

/-- `PerformanceBasedDifficultyAnalyzer._generate_difficulty_insights`: each
independent rule check appends at most one string, in source order. -/
def generate_difficulty_insights (avg_score score_std avg_time time_std
    total_attempts pass_rate : ℚ) : List String :=
  (if avg_score ≥ 9/10 then
    ["Question appears too easy - consider increasing complexity"]
  else if avg_score ≤ 3/10 then
    ["Question appears very difficult - may need clarification"]
  else if 4/10 ≤ avg_score ∧ avg_score ≤ 6/10 then
    ["Good difficulty level - appropriately challenging"]
  else []) ++
  (if score_std > 3/10 then
    ["High score variance suggests question may be ambiguous or confusing"]
  else if score_std < 1/10 then
    ["Low score variance - students consistently understand or don't understand"]
  else []) ++
  (if avg_time > 600 then
    ["Long completion time - question may be too complex or unclear"]
  else if avg_time < 30 then
    ["Very quick completion - question might be too simple"]
  else []) ++
  (if time_std > avg_time * (8/10) then
    ["High time variance - some students struggle while others don't"]
  else []) ++
  (if pass_rate < 3/10 then
    ["Low pass rate - consider providing additional learning resources"]
  else if pass_rate > 95/100 then
    ["Very high pass rate - question effectiveness is limited"]
  else []) ++
  (if total_attempts < 10 then
    ["Small sample size - difficulty assessment may be unreliable"]
  else if total_attempts > 100 then
    ["Large sample size - difficulty assessment is highly reliable"]
  else [])

/-- `PerformanceBasedDifficultyAnalyzer.calculate_question_difficulty`.
The source assigns `base_difficulty` and `difficulty_score` together in one
if/elif chain; here the chain is written once per variable with the same
conditions. -/
def calculate_question_difficulty (performance_data : PerformanceData) :
    DifficultyAnalysis :=
  let avg_score := performance_data.avg_score_ratio.getD 0
  let score_std := performance_data.score_std.getD 0
  let avg_time := performance_data.avg_time.getD 0
  let time_std := performance_data.time_std.getD 0
  let total_attempts := performance_data.total_attempts.getD 0
  let pass_rate := performance_data.pass_rate.getD 0
  let base_difficulty : String :=
    if avg_score ≥ difficulty_thresholds.score_easy then "easy"
    else if avg_score ≥ difficulty_thresholds.score_medium_high then "medium"
    else if avg_score ≥ difficulty_thresholds.score_medium then "medium"
    else if avg_score ≥ difficulty_thresholds.score_medium_low then "hard"
    else "hard"
  let difficulty_score : ℚ :=
    if avg_score ≥ difficulty_thresholds.score_easy then 1
    else if avg_score ≥ difficulty_thresholds.score_medium_high then 2
    else if avg_score ≥ difficulty_thresholds.score_medium then 3
    else if avg_score ≥ difficulty_thresholds.score_medium_low then 4
    else 5
  let variance_penalty : ℚ :=
    if score_std > difficulty_thresholds.variance_high then 1/2
    else if score_std > difficulty_thresholds.variance_medium then 1/4
    else 0
  let time_penalty : ℚ :=
    if avg_time > difficulty_thresholds.time_very_slow then 3/4
    else if avg_time > difficulty_thresholds.time_slow then 1/2
    else if avg_time > difficulty_thresholds.time_normal then 1/4
    else 0
  let final_score := min (5 : ℚ) (max 1 (difficulty_score + variance_penalty + time_penalty))
  let final_difficulty : String :=
    if final_score ≤ 3/2 then "easy"
    else if final_score ≤ 5/2 then "medium_easy"
    else if final_score ≤ 7/2 then "medium"
    else if final_score ≤ 9/2 then "medium_hard"
    else "hard"
  let confidence := min (1 : ℚ) (total_attempts / 50)
  { calculated_difficulty := final_difficulty
    difficulty_score := final_score
    confidence := confidence
    base_difficulty := base_difficulty
    performance_metrics :=
      { avg_score := avg_score, score_variance := score_std,
        avg_completion_time := avg_time, time_variance := time_std,
        pass_rate := pass_rate, sample_size := total_attempts }
    difficulty_factors :=
      { score_based := base_difficulty, variance_penalty := variance_penalty,
        time_penalty := time_penalty }
    insights := generate_difficulty_insights avg_score score_std avg_time
      time_std total_attempts pass_rate }

/-- The performance summary of the spec's Scenario B:
`avg_score_ratio=0.55, score_std=0.40, avg_time=250` (no other keys). -/
def scenarioB_data : PerformanceData :=
  { avg_score_ratio := some (55/100), score_std := some (40/100),
    avg_time := some 250 }

/-- A performance summary carrying only the three keys the scenario claims
vary: average score ratio, score standard deviation and average time. -/
def scoreOnly (r std t : ℚ) : PerformanceData :=
  { avg_score_ratio := some r, score_std := some std, avg_time := some t }

/-- Rank of a primary difficulty tier on the ordinal scale
easy < medium < hard used by the analyzer's base classification. -/
def tier_rank (tier : String) : ℕ :=
  if tier = "easy" then 0
  else if tier = "medium" then 1
  else if tier = "hard" then 2
  else 3

/-- `PerformanceData` with every absent key replaced by an explicit 0, the
default `calculate_question_difficulty` reads missing keys with. -/
def withZeroDefaults (p : PerformanceData) : PerformanceData :=
  { avg_score_ratio := some (p.avg_score_ratio.getD 0),
    score_std := some (p.score_std.getD 0),
    avg_time := some (p.avg_time.getD 0),
    time_std := some (p.time_std.getD 0),
    total_attempts := some (p.total_attempts.getD 0),
    pass_rate := some (p.pass_rate.getD 0) }

/-- With variance and time penalties forced to 0, a ratio in the top band
is classified easy with base score 1. -/
lemma calc_band_easy (r std t : ℚ) (hr : 8/10 ≤ r) (hstd : std ≤ 1/4)
    (ht : t ≤ 180) :
    (calculate_question_difficulty (scoreOnly r std t)).base_difficulty = "easy" ∧
    (calculate_question_difficulty (scoreOnly r std t)).difficulty_score = 1 := by
  have h1 : ¬ (std > 35/100) := by linarith
  have h2 : ¬ (std > 25/100) := by linarith
  have h3 : ¬ (t > 600) := by linarith
  have h4 : ¬ (t > 300) := by linarith
  have h5 : ¬ (t > 180) := by linarith
  have h6 : r ≥ 8/10 := hr
  simp only [calculate_question_difficulty, scoreOnly, difficulty_thresholds,
    Option.getD_some, Option.getD_none, if_neg h1, if_neg h2, if_neg h3,
    if_neg h4, if_neg h5, if_pos h6]
  norm_num [min_def, max_def]

/-- With penalties 0, a ratio in the second band is medium with base 2. -/
lemma calc_band_medium2 (r std t : ℚ) (hr : 65/100 ≤ r) (hr2 : r < 8/10)
    (hstd : std ≤ 1/4) (ht : t ≤ 180) :
    (calculate_question_difficulty (scoreOnly r std t)).base_difficulty = "medium" ∧
    (calculate_question_difficulty (scoreOnly r std t)).difficulty_score = 2 := by
  have h1 : ¬ (std > 35/100) := by linarith
  have h2 : ¬ (std > 25/100) := by linarith
  have h3 : ¬ (t > 600) := by linarith
  have h4 : ¬ (t > 300) := by linarith
  have h5 : ¬ (t > 180) := by linarith
  have h6 : ¬ (r ≥ 8/10) := by linarith
  have h7 : r ≥ 65/100 := hr
  simp only [calculate_question_difficulty, scoreOnly, difficulty_thresholds,
    Option.getD_some, Option.getD_none, if_neg h1, if_neg h2, if_neg h3,
    if_neg h4, if_neg h5, if_neg h6, if_pos h7]
  norm_num [min_def, max_def]

/-- With penalties 0, a ratio in the third band is medium with base 3. -/
lemma calc_band_medium3 (r std t : ℚ) (hr : 1/2 ≤ r) (hr2 : r < 65/100)
    (hstd : std ≤ 1/4) (ht : t ≤ 180) :
    (calculate_question_difficulty (scoreOnly r std t)).base_difficulty = "medium" ∧
    (calculate_question_difficulty (scoreOnly r std t)).difficulty_score = 3 := by
  have h1 : ¬ (std > 35/100) := by linarith
  have h2 : ¬ (std > 25/100) := by linarith
  have h3 : ¬ (t > 600) := by linarith
  have h4 : ¬ (t > 300) := by linarith
  have h5 : ¬ (t > 180) := by linarith
  have h6 : ¬ (r ≥ 8/10) := by linarith
  have h7 : ¬ (r ≥ 65/100) := by linarith
  have h8 : r ≥ 5/10 := by linarith
  simp only [calculate_question_difficulty, scoreOnly, difficulty_thresholds,
    Option.getD_some, Option.getD_none, if_neg h1, if_neg h2, if_neg h3,
    if_neg h4, if_neg h5, if_neg h6, if_neg h7, if_pos h8]
  norm_num [min_def, max_def]

/-- With penalties 0, a ratio in the fourth band is hard with base 4. -/
lemma calc_band_hard4 (r std t : ℚ) (hr : 35/100 ≤ r) (hr2 : r < 1/2)
    (hstd : std ≤ 1/4) (ht : t ≤ 180) :
    (calculate_question_difficulty (scoreOnly r std t)).base_difficulty = "hard" ∧
    (calculate_question_difficulty (scoreOnly r std t)).difficulty_score = 4 := by
  have h1 : ¬ (std > 35/100) := by linarith
  have h2 : ¬ (std > 25/100) := by linarith
  have h3 : ¬ (t > 600) := by linarith
  have h4 : ¬ (t > 300) := by linarith
  have h5 : ¬ (t > 180) := by linarith
  have h6 : ¬ (r ≥ 8/10) := by linarith
  have h7 : ¬ (r ≥ 65/100) := by linarith
  have h8 : ¬ (r ≥ 5/10) := by linarith
  have h9 : r ≥ 35/100 := hr
  simp only [calculate_question_difficulty, scoreOnly, difficulty_thresholds,
    Option.getD_some, Option.getD_none, if_neg h1, if_neg h2, if_neg h3,
    if_neg h4, if_neg h5, if_neg h6, if_neg h7, if_neg h8, if_pos h9]
  norm_num [min_def, max_def]

/-- With penalties 0, a ratio below every threshold is hard with base 5. -/
lemma calc_band_hard5 (r std t : ℚ) (hr : r < 35/100)
    (hstd : std ≤ 1/4) (ht : t ≤ 180) :
    (calculate_question_difficulty (scoreOnly r std t)).base_difficulty = "hard" ∧
    (calculate_question_difficulty (scoreOnly r std t)).difficulty_score = 5 := by
  have h1 : ¬ (std > 35/100) := by linarith
  have h2 : ¬ (std > 25/100) := by linarith
  have h3 : ¬ (t > 600) := by linarith
  have h4 : ¬ (t > 300) := by linarith
  have h5 : ¬ (t > 180) := by linarith
  have h6 : ¬ (r ≥ 8/10) := by linarith
  have h7 : ¬ (r ≥ 65/100) := by linarith
  have h8 : ¬ (r ≥ 5/10) := by linarith
  have h9 : ¬ (r ≥ 35/100) := by linarith
  simp only [calculate_question_difficulty, scoreOnly, difficulty_thresholds,
    Option.getD_some, Option.getD_none, if_neg h1, if_neg h2, if_neg h3,
    if_neg h4, if_neg h5, if_neg h6, if_neg h7, if_neg h8, if_neg h9]
  norm_num [min_def, max_def]

/-- C1 counterexample: on Scenario B (`avg_score_ratio=0.55, score_std=0.40,
avg_time=250`) the final clamped difficulty score is not 3.5, because the
time penalty 0.25 for `avg_time > 180` also applies. -/
theorem C1_scenarioB_score_not_3_5 :
    (calculate_question_difficulty scenarioB_data).difficulty_score ≠ 7/2 := by
  norm_num [calculate_question_difficulty, scenarioB_data, difficulty_thresholds,
    min_def, max_def]

/-- C1 (amended): on Scenario B the scorer yields base tier "medium",
variance penalty 0.5, time penalty 0.25 (since 250 > 180), a final clamped
difficulty score of 3.75, and calculated difficulty "medium_hard". -/
theorem C1_scenarioB_analysis :
    (calculate_question_difficulty scenarioB_data).base_difficulty = "medium" ∧
    (calculate_question_difficulty scenarioB_data).difficulty_factors.variance_penalty = 1/2 ∧
    (calculate_question_difficulty scenarioB_data).difficulty_factors.time_penalty = 1/4 ∧
    (calculate_question_difficulty scenarioB_data).difficulty_score = 15/4 ∧
    (calculate_question_difficulty scenarioB_data).calculated_difficulty = "medium_hard" := by
  refine ⟨?_, ?_, ?_, ?_, ?_⟩ <;>
    norm_num [calculate_question_difficulty, scenarioB_data, difficulty_thresholds,
      min_def, max_def]

/-- C5: with score variance and average time such that both penalties are 0,
the primary tier and base score are antitone in the average score ratio, and
follow the descending threshold ladder easy ≥ 0.80 (base 1), medium ≥ 0.65
(2), medium ≥ 0.50 (3), hard ≥ 0.35 (4), hard otherwise (5). -/
theorem C5_base_tier_antitone (a b std t : ℚ) (hab : a ≤ b)
    (hstd : std ≤ 1/4) (ht : t ≤ 180) :
    tier_rank (calculate_question_difficulty (scoreOnly b std t)).base_difficulty ≤
      tier_rank (calculate_question_difficulty (scoreOnly a std t)).base_difficulty ∧
    (calculate_question_difficulty (scoreOnly b std t)).difficulty_score ≤
      (calculate_question_difficulty (scoreOnly a std t)).difficulty_score ∧
    ((8/10 ≤ a →
        (calculate_question_difficulty (scoreOnly a std t)).base_difficulty = "easy" ∧
        (calculate_question_difficulty (scoreOnly a std t)).difficulty_score = 1) ∧
     (65/100 ≤ a ∧ a < 8/10 →
        (calculate_question_difficulty (scoreOnly a std t)).base_difficulty = "medium" ∧
        (calculate_question_difficulty (scoreOnly a std t)).difficulty_score = 2) ∧
     (1/2 ≤ a ∧ a < 65/100 →
        (calculate_question_difficulty (scoreOnly a std t)).base_difficulty = "medium" ∧
        (calculate_question_difficulty (scoreOnly a std t)).difficulty_score = 3) ∧
     (35/100 ≤ a ∧ a < 1/2 →
        (calculate_question_difficulty (scoreOnly a std t)).base_difficulty = "hard" ∧
        (calculate_question_difficulty (scoreOnly a std t)).difficulty_score = 4) ∧
     (a < 35/100 →
        (calculate_question_difficulty (scoreOnly a std t)).base_difficulty = "hard" ∧
        (calculate_question_difficulty (scoreOnly a std t)).difficulty_score = 5)) := by
  have band : ∀ r : ℚ,
      ((calculate_question_difficulty (scoreOnly r std t)).base_difficulty = "easy" ∧
        (calculate_question_difficulty (scoreOnly r std t)).difficulty_score = 1 ∧ 8/10 ≤ r) ∨
      ((calculate_question_difficulty (scoreOnly r std t)).base_difficulty = "medium" ∧
        (calculate_question_difficulty (scoreOnly r std t)).difficulty_score = 2 ∧
        65/100 ≤ r ∧ r < 8/10) ∨
      ((calculate_question_difficulty (scoreOnly r std t)).base_difficulty = "medium" ∧
        (calculate_question_difficulty (scoreOnly r std t)).difficulty_score = 3 ∧
        1/2 ≤ r ∧ r < 65/100) ∨
      ((calculate_question_difficulty (scoreOnly r std t)).base_difficulty = "hard" ∧
        (calculate_question_difficulty (scoreOnly r std t)).difficulty_score = 4 ∧
        35/100 ≤ r ∧ r < 1/2) ∨
      ((calculate_question_difficulty (scoreOnly r std t)).base_difficulty = "hard" ∧
        (calculate_question_difficulty (scoreOnly r std t)).difficulty_score = 5 ∧
        r < 35/100) := by
    intro r
    rcases le_or_lt (8/10) r with h1 | h1
    · exact Or.inl ⟨(calc_band_easy r std t h1 hstd ht).1,
        (calc_band_easy r std t h1 hstd ht).2, h1⟩
    rcases le_or_lt (65/100) r with h2 | h2
    · exact Or.inr (Or.inl ⟨(calc_band_medium2 r std t h2 h1 hstd ht).1,
        (calc_band_medium2 r std t h2 h1 hstd ht).2, h2, h1⟩)
    rcases le_or_lt (1/2) r with h3 | h3
    · exact Or.inr (Or.inr (Or.inl ⟨(calc_band_medium3 r std t h3 h2 hstd ht).1,
        (calc_band_medium3 r std t h3 h2 hstd ht).2, h3, h2⟩))
    rcases le_or_lt (35/100) r with h4 | h4
    · exact Or.inr (Or.inr (Or.inr (Or.inl ⟨(calc_band_hard4 r std t h4 h3 hstd ht).1,
        (calc_band_hard4 r std t h4 h3 hstd ht).2, h4, h3⟩)))
    · exact Or.inr (Or.inr (Or.inr (Or.inr ⟨(calc_band_hard5 r std t h4 hstd ht).1,
        (calc_band_hard5 r std t h4 hstd ht).2, h4⟩)))
  refine ⟨?_, ?_, ?_, ?_, ?_, ?_, ?_⟩
  · rcases band a with ⟨e1, _, ha⟩ | ⟨e1, _, ha, _⟩ | ⟨e1, _, ha, _⟩ |
      ⟨e1, _, ha, ha2⟩ | ⟨e1, _, ha⟩ <;>
    rcases band b with ⟨e2, _, hb⟩ | ⟨e2, _, hb, hb2⟩ | ⟨e2, _, hb, hb2⟩ |
      ⟨e2, _, hb, hb2⟩ | ⟨e2, _, hb⟩ <;>
    rw [e1, e2] <;> first
      | (exfalso; linarith)
      | decide
  · rcases band a with ⟨_, e1, ha⟩ | ⟨_, e1, ha, _⟩ | ⟨_, e1, ha, _⟩ |
      ⟨_, e1, ha, ha2⟩ | ⟨_, e1, ha⟩ <;>
    rcases band b with ⟨_, e2, hb⟩ | ⟨_, e2, hb, hb2⟩ | ⟨_, e2, hb, hb2⟩ |
      ⟨_, e2, hb, hb2⟩ | ⟨_, e2, hb⟩ <;>
    rw [e1, e2] <;> first
      | (exfalso; linarith)
      | norm_num
  · exact fun h => calc_band_easy a std t h hstd ht
  · exact fun h => calc_band_medium2 a std t h.1 h.2 hstd ht
  · exact fun h => calc_band_medium3 a std t h.1 h.2 hstd ht
  · exact fun h => calc_band_hard4 a std t h.1 h.2 hstd ht
  · exact fun h => calc_band_hard5 a std t h hstd ht

/-- C5 witness: the antitone theorem applied at a = 0.5 ≤ b = 0.7 with
variance and time fixed at 0. -/
theorem C5_base_tier_antitone_witness :
    tier_rank (calculate_question_difficulty (scoreOnly (7/10) 0 0)).base_difficulty ≤
      tier_rank (calculate_question_difficulty (scoreOnly (1/2) 0 0)).base_difficulty ∧
    (calculate_question_difficulty (scoreOnly (7/10) 0 0)).difficulty_score ≤
      (calculate_question_difficulty (scoreOnly (1/2) 0 0)).difficulty_score ∧
    ((8/10 ≤ (1/2 : ℚ) →
        (calculate_question_difficulty (scoreOnly (1/2) 0 0)).base_difficulty = "easy" ∧
        (calculate_question_difficulty (scoreOnly (1/2) 0 0)).difficulty_score = 1) ∧
     (65/100 ≤ (1/2 : ℚ) ∧ (1/2 : ℚ) < 8/10 →
        (calculate_question_difficulty (scoreOnly (1/2) 0 0)).base_difficulty = "medium" ∧
        (calculate_question_difficulty (scoreOnly (1/2) 0 0)).difficulty_score = 2) ∧
     (1/2 ≤ (1/2 : ℚ) ∧ (1/2 : ℚ) < 65/100 →
        (calculate_question_difficulty (scoreOnly (1/2) 0 0)).base_difficulty = "medium" ∧
        (calculate_question_difficulty (scoreOnly (1/2) 0 0)).difficulty_score = 3) ∧
     (35/100 ≤ (1/2 : ℚ) ∧ (1/2 : ℚ) < 1/2 →
        (calculate_question_difficulty (scoreOnly (1/2) 0 0)).base_difficulty = "hard" ∧
        (calculate_question_difficulty (scoreOnly (1/2) 0 0)).difficulty_score = 4) ∧
     ((1/2 : ℚ) < 35/100 →
        (calculate_question_difficulty (scoreOnly (1/2) 0 0)).base_difficulty = "hard" ∧
        (calculate_question_difficulty (scoreOnly (1/2) 0 0)).difficulty_score = 5)) :=
  C5_base_tier_antitone (1/2) (7/10) 0 0 (by norm_num) (by norm_num) (by norm_num)

/-- C10: `calculate_question_difficulty` is total over performance
dictionaries with any subset of the expected keys — reading a dictionary is
the same as reading it with every missing key filled by 0 — and on the empty
dictionary it returns calculated difficulty "hard", difficulty score 5,
confidence 0 and base difficulty "hard". -/
theorem C10_empty_performance_defaults :
    (∀ p : PerformanceData,
        calculate_question_difficulty p =
          calculate_question_difficulty (withZeroDefaults p)) ∧
    (calculate_question_difficulty {}).calculated_difficulty = "hard" ∧
    (calculate_question_difficulty {}).difficulty_score = 5 ∧
    (calculate_question_difficulty {}).confidence = 0 ∧
    (calculate_question_difficulty {}).base_difficulty = "hard" := by
  refine ⟨fun p => ?_, ?_, ?_, ?_, ?_⟩
  · simp [calculate_question_difficulty, withZeroDefaults]
  all_goals
    norm_num [calculate_question_difficulty, difficulty_thresholds, min_def, max_def]

/-! ## `app/services/feature_engineering.py`

Feature dictionaries are embedded as association lists `List (String × ℚ)`
in insertion order. External libraries (NLTK, textstat, VADER, spaCy,
numpy's standard deviation) are parameters of the embedding; the numeric
aggregates that are exact over ℚ are defined here. -/

/-- Python `str.strip()` with no argument: drop leading and trailing
whitespace. -/
def pyStrip (s : String) : String :=
  String.mk (((s.toList.dropWhile Char.isWhitespace).reverse.dropWhile
    Char.isWhitespace).reverse)

/-- Python `str.lower()` (over the ASCII range the embedding models). -/
def pyLower (s : String) : String :=
  String.mk (s.toList.map Char.toLower)

/-- Python `str.split()` with no separator: split on whitespace, dropping
empty pieces. -/
def pySplit (s : String) : List String :=
  ((s.toList.splitOnP Char.isWhitespace).map (fun l => String.mk l)).filter
    (fun w => w ≠ "")

/-- Python truthiness of an optional string argument: present and
non-empty. -/
def pyTruthyStr : Option String → Bool
  | none => false
  | some s => s ≠ ""

/-- Python `sub in s` for strings: substring containment (`sub` occurs in
`s` iff splitting `s` on `sub` yields more than one piece). -/
def strContains (s sub : String) : Bool :=
  (s.splitOn sub).length ≠ 1

/-- Python `str.isalpha()`: non-empty and all alphabetic characters. -/
def pyIsAlpha (w : String) : Bool :=
  w ≠ "" && w.toList.all Char.isAlpha

/-- `numpy.mean` over an embedded list of rationals. -/
def np_mean (xs : List ℚ) : ℚ := xs.sum / xs.length

/-- `numpy.median`: middle element of the sorted list, or the mean of the
two middle elements (0 for the empty list, which the source never passes). -/
def np_median (xs : List ℚ) : ℚ :=
  let s := xs.insertionSort (fun x y => x ≤ y)
  if xs.length % 2 = 1 then s.getD (xs.length / 2) 0
  else (s.getD (xs.length / 2 - 1) 0 + s.getD (xs.length / 2) 0) / 2

/-- `numpy.min` (0 for the empty list, which the source never passes). -/
def np_min : List ℚ → ℚ
  | [] => 0
  | x :: r => r.foldl min x

/-- `numpy.max` (0 for the empty list, which the source never passes). -/
def np_max : List ℚ → ℚ
  | [] => 0
  | x :: r => r.foldl max x

/-- The external text-analysis capabilities `FeatureEngineer` calls: NLTK
sentence tokenization, the textstat readability metrics, the VADER
sentiment components, and the optional spaCy pipeline (`none` when spaCy
failed to load, in which case the source zero-fills the five syntactic
features). These are external packages, not code of this repository, so
they are parameters of the embedding. -/
structure TextAnalyzer where
  sent_tokenize : String → List String
  flesch_reading_ease : String → ℚ
  flesch_kincaid_grade : String → ℚ
  gunning_fog : String → ℚ
  automated_readability_index : String → ℚ
  syllable_count : String → ℚ
  polysyllabcount : String → ℚ
  difficult_words : String → ℚ
  sentiment_pos : String → ℚ
  sentiment_neg : String → ℚ
  sentiment_neu : String → ℚ
  sentiment_compound : String → ℚ
  pos_counts : Option (String → ℚ × ℚ × ℚ × ℚ × ℚ)

/-- The 21 keys of `FeatureEngineer._get_empty_features`, in source order
(the readability, lexical and sentiment keys — no part-of-speech keys). -/
def base_text_keys : List String :=
  ["char_count", "word_count", "sentence_count", "paragraph_count",
   "avg_word_length", "avg_sentence_length", "flesch_reading_ease",
   "flesch_kincaid_grade", "gunning_fog", "automated_readability_index",
   "syllable_count", "polysyllable_count", "difficult_words",
   "unique_word_ratio", "punctuation_count", "uppercase_ratio",
   "digit_count", "sentiment_positive", "sentiment_negative",
   "sentiment_neutral", "sentiment_compound"]

/-- The five spaCy-derived keys `extract_text_features` adds for non-empty
text. -/
def pos_text_keys : List String :=
  ["noun_count", "verb_count", "adj_count", "adv_count", "entity_count"]

/-- `FeatureEngineer._get_empty_features`: every base key mapped to 0.0. -/
def get_empty_features : List (String × ℚ) :=
  base_text_keys.map (fun key => (key, 0))

/-- `FeatureEngineer.extract_text_features`. The five part-of-speech
features are a single tuple `posc` (spaCy's counts when available, zeros
otherwise, as in the source's try/except and `nlp is None` fallbacks). -/
def extract_text_features (ext : TextAnalyzer) (text : String) :
    List (String × ℚ) :=
  if text = "" ∨ pyStrip text = "" then get_empty_features
  else
    let words := pySplit text
    let sentences := ext.sent_tokenize text
    let posc : ℚ × ℚ × ℚ × ℚ × ℚ :=
      match ext.pos_counts with
      | some f => f text
      | none => (0, 0, 0, 0, 0)
    [("char_count", (text.length : ℚ)),
     ("word_count", (words.length : ℚ)),
     ("sentence_count", (sentences.length : ℚ)),
     ("paragraph_count",
       (((text.splitOn "\n\n").filter (fun p => pyStrip p ≠ "")).length : ℚ)),
     ("avg_word_length",
       if words ≠ [] then np_mean (words.map (fun w => (w.length : ℚ))) else 0),
     ("avg_sentence_length",
       if sentences ≠ [] then
         np_mean (sentences.map (fun s => ((pySplit s).length : ℚ)))
       else 0),
     ("flesch_reading_ease", ext.flesch_reading_ease text),
     ("flesch_kincaid_grade", ext.flesch_kincaid_grade text),
     ("gunning_fog", ext.gunning_fog text),
     ("automated_readability_index", ext.automated_readability_index text),
     ("syllable_count", ext.syllable_count text),
     ("polysyllable_count", ext.polysyllabcount text),
     ("difficult_words", ext.difficult_words text),
     ("unique_word_ratio",
       if words ≠ [] then
         ((((words.filter (fun w => pyIsAlpha w)).map
             (fun w => pyLower w)).dedup.length : ℚ)) / words.length
       else 0),
     ("punctuation_count",
       ((text.toList.filter (fun c => c ∈ ['.', ',', ';', ':', '!', '?'])).length : ℚ)),
     ("uppercase_ratio",
       if text ≠ "" then
         ((text.toList.filter (fun c => c.isUpper)).length : ℚ) / text.length
       else 0),
     ("digit_count", ((text.toList.filter (fun c => c.isDigit)).length : ℚ)),
     ("sentiment_positive", ext.sentiment_pos text),
     ("sentiment_negative", ext.sentiment_neg text),
     ("sentiment_neutral", ext.sentiment_neu text),
     ("sentiment_compound", ext.sentiment_compound text),
     ("noun_count", posc.1),
     ("verb_count", posc.2.1),
     ("adj_count", posc.2.2.1),
     ("adv_count", posc.2.2.2.1),
     ("entity_count", posc.2.2.2.2)]

/-- The word set `set(text.lower().split())` built inside
`extract_answer_features`. -/
def wordSet (text : String) : Finset String :=
  (pySplit (pyLower text)).toFinset

/-- The Jaccard word-overlap ratio computed (twice, once per optional
companion text) in `extract_answer_features`:
`len(aw & bw) / len(aw | bw) if aw | bw else 0`. -/
def jaccard (a b : String) : ℚ :=
  if (wordSet a ∪ wordSet b).Nonempty then
    ((wordSet a ∩ wordSet b).card : ℚ) / ((wordSet a ∪ wordSet b).card : ℚ)
  else 0

/-- `FeatureEngineer.extract_question_features`. -/
def extract_question_features (ext : TextAnalyzer) (question_text : String)
    (question_type : Option String := none) : List (String × ℚ) :=
  extract_text_features ext question_text ++
  [("question_word_count",
     ((["what", "when", "where", "who", "why", "how", "which", "whom",
        "whose"].filter
       (fun word => strContains (pyLower question_text) word)).length : ℚ)),
   ("has_question_mark", if question_text.contains '?' then 1 else 0)] ++
  (if pyTruthyStr question_type then
    [("is_multiple_choice", if question_type = some "multiple_choice" then 1 else 0),
     ("is_short_answer", if question_type = some "short_answer" then 1 else 0),
     ("is_essay", if question_type = some "essay" then 1 else 0)]
  else [])

/-- `FeatureEngineer.extract_answer_features`. -/
def extract_answer_features (ext : TextAnalyzer) (answer_text : String)
    (question_text : Option String := none)
    (correct_answer : Option String := none) : List (String × ℚ) :=
  extract_text_features ext answer_text ++
  (if pyTruthyStr question_text then
    [("answer_question_overlap", jaccard answer_text (question_text.getD ""))]
  else []) ++
  (if pyTruthyStr correct_answer then
    [("correct_answer_similarity", jaccard answer_text (correct_answer.getD ""))]
  else []) ++
  [("starts_with_capital",
     if answer_text ≠ "" ∧ answer_text.front.isUpper then 1 else 0),
   ("ends_with_period", if answer_text.endsWith "." then 1 else 0),
   ("contains_numbers", if answer_text.toList.any Char.isDigit then 1 else 0)]

/-- One element of the `student_answers` list passed to
`extract_performance_features`: the keys the function reads. -/
structure AnswerRecord where
  student_id : String
  score : ℚ
  max_score : ℚ
  time_taken : ℚ
deriving Repr, DecidableEq

/-- `FeatureEngineer.extract_performance_features`. `numpy.std` (the
population standard deviation, irrational in general) is passed in as
`stdFn`; the numpy aggregates that are exact over ℚ are the definitions
above. -/
def extract_performance_features (stdFn : List ℚ → ℚ)
    (student_answers : List AnswerRecord) : List (String × ℚ) :=
  if student_answers = [] then []
  else
    let scores := (student_answers.filter (fun a => a.max_score > 0)).map
      (fun a => a.score / a.max_score)
    let times := (student_answers.filter (fun a => a.time_taken > 0)).map
      (fun a => a.time_taken)
    (if scores ≠ [] then
      [("avg_score", np_mean scores),
       ("median_score", np_median scores),
       ("std_score", stdFn scores),
       ("min_score", np_min scores),
       ("max_score", np_max scores),
       ("pass_rate",
         ((scores.filter (fun score => score ≥ 6/10)).length : ℚ) / scores.length)]
    else []) ++
    (if times ≠ [] then
      [("avg_time", np_mean times),
       ("median_time", np_median times),
       ("std_time", stdFn times)]
    else []) ++
    [("total_attempts", (student_answers.length : ℚ)),
     ("unique_students",
       ((student_answers.map (fun a => a.student_id)).dedup.length : ℚ))]

/-- A Python error an embedded fallible path surfaces: the untyped mapping
`KeyError` from `self.models[name]`, the `ValueError` the predict methods
raise explicitly, or the `ZeroDivisionError` of a zero divisor in
`create_feature_matrix`'s `score_ratio`. -/
inductive PyErr where
  | keyError : String → PyErr
  | valueError : String → PyErr
  | zeroDivisionError : String → PyErr
deriving Repr, DecidableEq

/-- One element of the `data` list passed to `create_feature_matrix`: each
key the loop reads may be absent. -/
structure DataItem where
  question_text : Option String := none
  answer_text : Option String := none
  question_type : Option String := none
  correct_answer : Option String := none
  score : Option ℚ := none
  max_score : Option ℚ := none
  time_taken : Option ℚ := none
deriving Repr, DecidableEq

/-- Python `{**q, **a}` on dictionaries embedded as association lists with
distinct keys: q's keys in order, a's value winning on a shared key,
then a's remaining keys in order. -/
def dictMerge (q a : List (String × ℚ)) : List (String × ℚ) :=
  q.map (fun kv => (kv.1, (a.lookup kv.1).getD kv.2)) ++
    a.filter (fun kv => q.lookup kv.1 = none)

/-- One iteration of the loop in `create_feature_matrix`: the feature
dictionary appended for an item, `none` when the item has no
`question_text` key and the loop appends nothing, and Python's
`ZeroDivisionError` when the combined branch computes
`item.get('score', 0) / item.get('max_score', 1)` with a `max_score` key
present and equal to 0. -/
def row_features (ext : TextAnalyzer) (item : DataItem) :
    Option (Except PyErr (List (String × ℚ))) :=
  match item.question_text, item.answer_text with
  | some qt, some ans =>
    let question_features := extract_question_features ext qt item.question_type
    let answer_features := extract_answer_features ext ans (some qt) item.correct_answer
    let combined_features := dictMerge question_features answer_features
    if item.max_score.getD 1 = 0 then
      some (.error (.zeroDivisionError "division by zero"))
    else
      some (.ok (combined_features ++
        [("score_ratio", item.score.getD 0 / item.max_score.getD 1),
         ("time_taken", item.time_taken.getD 0)]))
  | some qt, none =>
    some (.ok (extract_question_features ext qt item.question_type))
  | none, _ => none

/-- The `features_list` accumulated by the loop in `create_feature_matrix`;
the first `ZeroDivisionError` raised aborts the whole call. -/
def create_features_list (ext : TextAnalyzer) (data : List DataItem) :
    Except PyErr (List (List (String × ℚ))) :=
  match data with
  | [] => .ok []
  | item :: rest =>
    match row_features ext item with
    | none => create_features_list ext rest
    | some (.error e) => .error e
    | some (.ok r) =>
      match create_features_list ext rest with
      | .error e => .error e
      | .ok rs => .ok (r :: rs)

/-- The column set of `pd.DataFrame(features_list)`: the union of the rows'
keys in first-seen order. -/
def frame_columns (rows : List (List (String × ℚ))) : List String :=
  rows.foldl (fun acc r => acc ++ ((r.map Prod.fst).filter (fun c => c ∉ acc))) []

/-- `FeatureEngineer.create_feature_matrix`:
`pd.DataFrame(features_list).fillna(0)` — each row completed to the full
column set, a cell whose row lacks the column becoming 0 — or the
propagated `ZeroDivisionError` from the loop. -/
def create_feature_matrix (ext : TextAnalyzer) (data : List DataItem) :
    Except PyErr (List (List (String × ℚ))) :=
  match create_features_list ext data with
  | .error e => .error e
  | .ok features_list =>
    .ok (features_list.map (fun r =>
      (frame_columns features_list).map (fun c => (c, (r.lookup c).getD 0))))

/-- A concrete stand-in analyzer for closed counterexamples and witnesses:
every external metric returns 0 and spaCy is unavailable. -/
def trivialAnalyzer : TextAnalyzer where
  sent_tokenize := fun _ => []
  flesch_reading_ease := fun _ => 0
  flesch_kincaid_grade := fun _ => 0
  gunning_fog := fun _ => 0
  automated_readability_index := fun _ => 0
  syllable_count := fun _ => 0
  polysyllabcount := fun _ => 0
  difficult_words := fun _ => 0
  sentiment_pos := fun _ => 0
  sentiment_neg := fun _ => 0
  sentiment_neu := fun _ => 0
  sentiment_compound := fun _ => 0
  pos_counts := none

/-- The three answers of the spec's Scenario C: scores [90, 85, 95] out of
max 100, times [40, 50, 45], three distinct student ids. -/
def scenarioC_answers : List AnswerRecord :=
  [{ student_id := "s1", score := 90, max_score := 100, time_taken := 40 },
   { student_id := "s2", score := 85, max_score := 100, time_taken := 50 },
   { student_id := "s3", score := 95, max_score := 100, time_taken := 45 }]

/-- A record with an `answer_text` key but no `question_text` key: the loop
in `create_feature_matrix` appends nothing for it. -/
def item_without_question : DataItem :=
  { answer_text := some "hi" }

/-- A record with `question_text`, `answer_text` and a `max_score` key
present as 0: the `score_ratio` division raises `ZeroDivisionError`. -/
def item_zero_max : DataItem :=
  { question_text := some "q", answer_text := some "a", max_score := some 0 }

/-! ## `app/services/ml_models.py`

The trained artifacts (sklearn models, scalers, label encoders) are opaque
values of a type parameter `α`; the inference calls on them are function
parameters of the embedding. -/

/-- The state of an `MLModels` instance: the `models`, `scalers` and
`label_encoders` dictionaries plus the `.joblib` files on disk under
`model_path`, keyed by artifact name. -/
structure MLState (α : Type) where
  models : List (String × α) := []
  scalers : List (String × α) := []
  label_encoders : List (String × α) := []
  disk : List (String × α) := []

/-- Python `d[key] = value` on a dict embedded as an association list:
replace in place, or append when the key is new. -/
def dictAssign {α : Type} (l : List (String × α)) (k : String) (v : α) :
    List (String × α) :=
  if (l.lookup k).isSome then
    l.map (fun kv => if kv.1 = k then (k, v) else kv)
  else l ++ [(k, v)]

/-- `MLModels._load_model`: when `name.joblib` exists on disk the artifact
is loaded, stored in the dictionary selected by the name's suffix (a plain
model name goes to `self.models[name]`) and returned; when the file does
not exist the method prints a message, returns `None`, and — the point
claim C3 turns on — stores nothing. -/
def load_model {α : Type} (st : MLState α) (name : String) :
    Option α × MLState α :=
  match st.disk.lookup name with
  | some m =>
    if name.endsWith "_scaler" then
      (some m,
       { st with scalers := dictAssign st.scalers (name.replace "_scaler" "") m })
    else if name.endsWith "_encoder" then
      (some m,
       { st with
          label_encoders := dictAssign st.label_encoders (name.replace "_encoder" "") m })
    else
      (some m, { st with models := dictAssign st.models name m })
  | none => (none, st)

/-- `MLModels.predict_difficulty`. `infer` stands for the external sklearn
work (scaling, `model.predict`, `predict_proba`, label decoding) applied to
the loaded model, scaler and encoder; `β` is the feature-matrix type and
`γ` the prediction-list type. The method first lazily loads the model slot,
then reads `self.models['difficulty_predictor']` — a `KeyError` when the
key is still absent — and only then checks for `None` artifacts with its
explicit `ValueError`. -/
def predict_difficulty {α β γ : Type} (infer : α → α → α → β → γ)
    (st : MLState α) (features : β) : Except PyErr γ × MLState α :=
  let st1 := if (st.models.lookup "difficulty_predictor").isSome then st
             else (load_model st "difficulty_predictor").2
  match st1.models.lookup "difficulty_predictor" with
  | none => (.error (.keyError "difficulty_predictor"), st1)
  | some model =>
    match st1.scalers.lookup "difficulty", st1.label_encoders.lookup "difficulty" with
    | some scaler, some encoder => (.ok (infer model scaler encoder features), st1)
    | _, _ =>
      (.error (.valueError "Difficulty prediction model not trained or loaded"), st1)

/-- `MLModels.predict_score`. `transform` is the persisted scaler's
`transform`, `predictFn` the regressor's `predict`; the method clips every
prediction to [0, 1] with `np.clip(predictions, 0, 1)` before returning. -/
def predict_score {α β : Type} (transform : α → β → β)
    (predictFn : α → β → List ℚ) (st : MLState α) (features : β) :
    Except PyErr (List ℚ) × MLState α :=
  let st1 := if (st.models.lookup "score_predictor").isSome then st
             else (load_model st "score_predictor").2
  match st1.models.lookup "score_predictor" with
  | none => (.error (.keyError "score_predictor"), st1)
  | some model =>
    match st1.scalers.lookup "score" with
    | none => (.error (.valueError "Score prediction model not trained or loaded"), st1)
    | some scaler =>
      (.ok ((predictFn model (transform scaler features)).map
        (fun p => min (max p 0) 1)), st1)

/-- An `MLModels` state with a trained score-predictor artifact and its
scaler in memory (artifacts are `Unit` stand-ins), for the C7 witness. -/
def score_state : MLState Unit :=
  { models := [("score_predictor", ())], scalers := [("score", ())] }

/-! ## Shared lookup helpers -/

/-- Looking a key up in an appended association list reads the left list
first. -/
lemma lookup_append (k : String) (l₁ l₂ : List (String × ℚ)) :
    (l₁ ++ l₂).lookup k =
      match l₁.lookup k with
      | some v => some v
      | none => l₂.lookup k := by
  induction l₁ with
  | nil => rfl
  | cons p l ih =>
    obtain ⟨k', v⟩ := p
    cases h : (k == k') <;> simp [List.lookup, h, ih]

/-- A lookup that hits neither of the two trailing count entries is blind
to their values. -/
lemma lookup_tail_irrel (key : String) (h1 : key ≠ "total_attempts")
    (h2 : key ≠ "unique_students") (pre : List (String × ℚ)) (x y w z : ℚ) :
    (pre ++ [("total_attempts", x), ("unique_students", y)]).lookup key =
      (pre ++ [("total_attempts", w), ("unique_students", z)]).lookup key := by
  have e1 : (key == "total_attempts") = false := beq_eq_false_iff_ne.mpr h1
  have e2 : (key == "unique_students") = false := beq_eq_false_iff_ne.mpr h2
  rw [lookup_append, lookup_append]
  cases pre.lookup key <;> simp [List.lookup, e1, e2]

/-- The key list of a text-feature vector is the 21 base keys (empty text)
or the base keys followed by the five part-of-speech keys. -/
lemma extract_text_features_keys (ext : TextAnalyzer) (t : String) :
    (extract_text_features ext t).map Prod.fst = base_text_keys ∨
    (extract_text_features ext t).map Prod.fst = base_text_keys ++ pos_text_keys := by
  rw [extract_text_features]
  split
  · exact Or.inl rfl
  · exact Or.inr rfl

/-! ## Claim theorems (feature engineering) -/

/-- C8: `extract_text_features` on the empty string and on every
whitespace-only string returns the same fixed all-zero vector over the 21
base readability/lexical/sentiment keys, which contains no part-of-speech
key. -/
theorem C8_empty_text_features :
    (∀ (ext : TextAnalyzer) (s : String), (∀ c ∈ s.toList, c.isWhitespace) →
      extract_text_features ext s = get_empty_features) ∧
    (∀ ext : TextAnalyzer, extract_text_features ext "" = get_empty_features) ∧
    (∀ ext : TextAnalyzer, extract_text_features ext "   " = get_empty_features) ∧
    get_empty_features.map Prod.fst = base_text_keys ∧
    (∀ kv ∈ get_empty_features, kv.2 = 0) ∧
    (∀ key ∈ pos_text_keys, key ∉ base_text_keys) := by
  have hws : ∀ (ext : TextAnalyzer) (s : String),
      (∀ c ∈ s.toList, c.isWhitespace) →
      extract_text_features ext s = get_empty_features := by
    intro ext s h
    have h1 : s.toList.dropWhile Char.isWhitespace = [] :=
      List.dropWhile_eq_nil_iff.mpr h
    rw [extract_text_features, if_pos]
    right
    unfold pyStrip
    rw [h1]
    rfl
  exact ⟨hws, fun ext => hws ext "" (by decide),
    fun ext => hws ext "   " (by decide), rfl, by decide, by decide⟩

/-- C6 counterexample: the one-space string is a non-empty string identical
to itself, yet the word-overlap ratio of the pair is 0, not 1 — its word
set is empty, so the guarded union-empty branch returns 0. -/
theorem C6_identical_whitespace_overlap_zero :
    (" " : String) ≠ "" ∧ jaccard " " " " = 0 ∧ jaccard " " " " ≠ 1 := by
  have h : wordSet " " = ∅ := by decide
  exact ⟨by decide, by simp [jaccard, h], by simp [jaccard, h]⟩

/-- C6 (amended): the Jaccard word-overlap ratio computed by
`extract_answer_features` always lies in [0,1]; it equals 1 when the two
texts are identical and contain at least one word; and it equals 0 when
either text is empty — in particular it is 0, not a division error, when
the union of the word sets is empty. -/
theorem C6_jaccard_overlap_ratio :
    (∀ a b : String, 0 ≤ jaccard a b ∧ jaccard a b ≤ 1) ∧
    (∀ a : String, pySplit (pyLower a) ≠ [] → jaccard a a = 1) ∧
    (∀ b : String, jaccard "" b = 0 ∧ jaccard b "" = 0) := by
  refine ⟨fun a b => ?_, fun a h => ?_, fun b => ?_⟩
  · unfold jaccard
    split
    case isTrue h =>
      refine ⟨by positivity, ?_⟩
      rw [div_le_one (by exact_mod_cast Finset.card_pos.mpr h)]
      exact_mod_cast Finset.card_le_card Finset.inter_subset_union
    case isFalse h => norm_num
  · have hne : (wordSet a).Nonempty := by
      obtain ⟨x, hx⟩ := List.exists_mem_of_ne_nil _ h
      exact ⟨x, List.mem_toFinset.mpr hx⟩
    rw [jaccard, if_pos (by rwa [Finset.union_self])]
    rw [Finset.union_self, Finset.inter_self, div_self]
    exact_mod_cast (Finset.card_pos.mpr hne).ne'
  · have h : wordSet "" = ∅ := by decide
    constructor <;> simp [jaccard, h]

/-- C9 counterexample: the empty string is a supplied `question_type`, yet
`extract_question_features` emits no `is_multiple_choice` flag for it (the
source tests the argument's truthiness, not its presence). -/
theorem C9_supplied_empty_type_no_flag :
    (some "" : Option String).isSome = true ∧
    "is_multiple_choice" ∉
      (extract_question_features trivialAnalyzer "What is this?" (some "")).map
        Prod.fst := by
  exact ⟨rfl, by decide⟩

/-- C9 (amended): the one-hot question-type flags are present iff the
supplied `question_type` is non-empty (and no `is_true_false` flag ever
exists); the answer-overlap features are present iff the corresponding
companion text is supplied and non-empty. -/
theorem C9_optional_feature_keys :
    (∀ (ext : TextAnalyzer) (qt : String) (ty : Option String),
      ("is_multiple_choice" ∈ (extract_question_features ext qt ty).map Prod.fst ↔
        pyTruthyStr ty = true) ∧
      ("is_short_answer" ∈ (extract_question_features ext qt ty).map Prod.fst ↔
        pyTruthyStr ty = true) ∧
      ("is_essay" ∈ (extract_question_features ext qt ty).map Prod.fst ↔
        pyTruthyStr ty = true) ∧
      "is_true_false" ∉ (extract_question_features ext qt ty).map Prod.fst) ∧
    (∀ (ext : TextAnalyzer) (ans : String) (q c : Option String),
      ("answer_question_overlap" ∈ (extract_answer_features ext ans q c).map Prod.fst ↔
        pyTruthyStr q = true) ∧
      ("correct_answer_similarity" ∈ (extract_answer_features ext ans q c).map Prod.fst ↔
        pyTruthyStr c = true)) := by
  constructor
  · intro ext qt ty
    refine ⟨?_, ?_, ?_, ?_⟩ <;>
    · rw [extract_question_features]
      simp only [List.map_append, List.mem_append]
      rcases extract_text_features_keys ext qt with h | h <;> rw [h] <;>
        cases hty : pyTruthyStr ty <;>
        simp [hty, base_text_keys, pos_text_keys]
  · intro ext ans q c
    constructor <;>
    · rw [extract_answer_features]
      simp only [List.map_append, List.mem_append]
      rcases extract_text_features_keys ext ans with h | h <;> rw [h] <;>
        cases hq : pyTruthyStr q <;> cases hc : pyTruthyStr c <;>
        simp [hq, hc, base_text_keys, pos_text_keys]

/-- C4: the performance aggregator returns the empty summary on empty
input; an answer with `max_score ≤ 0` and `time_taken ≤ 0` changes no
score or time statistic (only the two trailing count entries);
`unique_students` is the number of distinct `student_id` values over all
answers, unaffected by those filters; `pass_rate` is the fraction of
filtered score ratios ≥ 0.6; and on Scenario C (scores [90, 85, 95] out of
100, three distinct ids) the average score ratio is 0.9, the pass rate 1
and `unique_students` 3 — all regardless of the external `numpy.std`. -/
theorem C4_performance_aggregation :
    (∀ stdFn : List ℚ → ℚ, extract_performance_features stdFn [] = []) ∧
    (∀ (stdFn : List ℚ → ℚ) (answers : List AnswerRecord) (a : AnswerRecord),
      a.max_score ≤ 0 → a.time_taken ≤ 0 → ∀ key : String,
      key ≠ "total_attempts" → key ≠ "unique_students" →
      (extract_performance_features stdFn (answers ++ [a])).lookup key =
        (extract_performance_features stdFn answers).lookup key) ∧
    (∀ (stdFn : List ℚ → ℚ) (answers : List AnswerRecord), answers ≠ [] →
      (extract_performance_features stdFn answers).lookup "unique_students" =
        some (((answers.map (fun a => a.student_id)).toFinset.card : ℚ))) ∧
    (∀ (stdFn : List ℚ → ℚ) (answers : List AnswerRecord), answers ≠ [] →
      (answers.filter (fun a => a.max_score > 0)).map
        (fun a => a.score / a.max_score) ≠ [] →
      (extract_performance_features stdFn answers).lookup "pass_rate" =
        some (((((answers.filter (fun a => a.max_score > 0)).map
            (fun a => a.score / a.max_score)).filter
              (fun score => score ≥ 6/10)).length : ℚ) /
          (((answers.filter (fun a => a.max_score > 0)).map
            (fun a => a.score / a.max_score)).length : ℚ))) ∧
    (∀ stdFn : List ℚ → ℚ,
      (extract_performance_features stdFn scenarioC_answers).lookup "avg_score" =
        some (9/10) ∧
      (extract_performance_features stdFn scenarioC_answers).lookup "pass_rate" =
        some 1 ∧
      (extract_performance_features stdFn scenarioC_answers).lookup "unique_students" =
        some 3) := by
  refine ⟨fun stdFn => rfl, ?_, ?_, ?_, ?_⟩
  · intro stdFn answers a hm htt key h1 h2
    have hfm : (answers ++ [a]).filter (fun x => x.max_score > 0) =
        answers.filter (fun x => x.max_score > 0) := by
      rw [List.filter_append]
      simp [List.filter_cons, not_lt.mpr hm]
    have hft : (answers ++ [a]).filter (fun x => x.time_taken > 0) =
        answers.filter (fun x => x.time_taken > 0) := by
      rw [List.filter_append]
      simp [List.filter_cons, not_lt.mpr htt]
    have e1 : (key == "total_attempts") = false := beq_eq_false_iff_ne.mpr h1
    have e2 : (key == "unique_students") = false := beq_eq_false_iff_ne.mpr h2
    by_cases hA : answers = []
    · subst hA
      have hRHS : extract_performance_features stdFn [] = [] := rfl
      rw [hRHS]
      simp only [List.nil_append] at hfm hft ⊢
      simp only [extract_performance_features]
      rw [if_neg (by simp), hfm, hft]
      simp only [List.filter_nil, List.map_nil, ne_eq, not_true_eq_false]
      rw [if_neg (by simp), if_neg (by simp)]
      simp [List.lookup, e1, e2]
    · simp only [extract_performance_features]
      rw [if_neg (by simp), if_neg hA, hfm, hft]
      exact lookup_tail_irrel key h1 h2 _ _ _ _ _
  · intro stdFn answers h
    simp only [extract_performance_features]
    rw [if_neg h, List.card_toFinset]
    split <;> split <;> rfl
  · intro stdFn answers h hs
    simp only [extract_performance_features]
    rw [if_neg h, if_pos hs]
    rfl
  · intro stdFn
    refine ⟨?_, ?_, ?_⟩
    · simp [extract_performance_features, scenarioC_answers, np_mean, List.lookup]
      norm_num
    · simp [extract_performance_features, scenarioC_answers, List.lookup]
      norm_num [List.filter_cons, decide_eq_true_eq]
    · simp [extract_performance_features, scenarioC_answers, List.lookup]

/-! ## Claim theorems (feature matrix and model registry) -/

/-- A loop iteration acts (with a row or an error) exactly when the item
has a `question_text` key. -/
lemma row_features_isSome (ext : TextAnalyzer) (item : DataItem) :
    (row_features ext item).isSome = item.question_text.isSome := by
  rcases hq : item.question_text with _ | q <;>
    rcases ha : item.answer_text with _ | a <;>
    simp only [row_features, hq, ha] <;>
    first
      | rfl
      | (split <;> rfl)

/-- When the loop completes without a `ZeroDivisionError`, the features
list has one row per item carrying a `question_text` key. -/
lemma create_features_list_length (ext : TextAnalyzer) :
    ∀ (data : List DataItem) (fl : List (List (String × ℚ))),
      create_features_list ext data = .ok fl →
      fl.length = data.countP (fun item => item.question_text.isSome) := by
  intro data
  induction data with
  | nil =>
    intro fl h
    simp only [create_features_list, Except.ok.injEq] at h
    subst h
    rfl
  | cons d l ih =>
    intro fl h
    have hd := row_features_isSome ext d
    rcases hr : row_features ext d with _ | er
    · rw [hr] at hd
      simp only [Option.isSome_none] at hd
      simp only [create_features_list, hr] at h
      rw [List.countP_cons, ih fl h, ← hd]
      simp
    · rcases er with e | r
      · exact Except.noConfusion (by simpa only [create_features_list, hr] using h)
      · rw [hr] at hd
        simp only [Option.isSome_some] at hd
        simp only [create_features_list, hr] at h
        rcases hl : create_features_list ext l with e | rs <;> rw [hl] at h
        · simp at h
        · simp only [Except.ok.injEq] at h
          subst h
          rw [List.countP_cons, List.length_cons, ih rs hl, ← hd]
          simp

/-- A pair drawn from a list zipped with its own image under `f` relates
its components by `f`. -/
lemma zip_map_self {γ : Type} (f : γ → γ) :
    ∀ (l : List γ) (pr : γ × γ), pr ∈ l.zip (l.map f) → pr.2 = f pr.1 := by
  intro l
  induction l with
  | nil => intro pr h; cases h
  | cons x l ih =>
    intro pr h
    rcases List.mem_cons.mp h with rfl | h2
    · rfl
    · exact ih pr h2

/-- Looking up a column in a row rebuilt over the full column list yields
the generating function's value. -/
lemma lookup_map_pair (g : String → ℚ) :
    ∀ (cols : List String) (c : String), c ∈ cols →
      (cols.map (fun d => (d, g d))).lookup c = some (g c) := by
  intro cols
  induction cols with
  | nil => intro c h; cases h
  | cons d cols ih =>
    intro c hc
    cases h : (c == d)
    · have hne : c ≠ d := beq_eq_false_iff_ne.mp h
      have hm : c ∈ cols := by
        rcases List.mem_cons.mp hc with rfl | h2
        · exact absurd rfl hne
        · exact h2
      simp [List.lookup, h, ih c hm]
    · have he : c = d := eq_of_beq h
      subst he
      simp [List.lookup]

/-- C2 counterexample: a record with an `answer_text` key but no
`question_text` key contributes no row, so the returned matrix has fewer
rows than the input. -/
theorem C2_missing_question_text_drops_row :
    create_feature_matrix trivialAnalyzer [item_without_question] =
      .ok ([] : List (List (String × ℚ))) ∧
    ([] : List (List (String × ℚ))).length ≠ [item_without_question].length := by
  exact ⟨rfl, by decide⟩

/-- C2 (amended): when `create_feature_matrix` returns a table (a record
with `question_text`, `answer_text` and a zero `max_score` instead raises
`ZeroDivisionError`), the table has exactly one row per input record that
carries a `question_text` key (records without one are skipped); all rows
share the full column list; and a cell whose row lacked the column is
present with value 0 rather than omitted. -/
theorem C2_feature_matrix_fill :
    (∀ (ext : TextAnalyzer) (data : List DataItem)
       (rows : List (List (String × ℚ))),
      create_feature_matrix ext data = .ok rows →
      rows.length = data.countP (fun item => item.question_text.isSome)) ∧
    (∀ (ext : TextAnalyzer) (data : List DataItem)
       (fl rows : List (List (String × ℚ))),
      create_features_list ext data = .ok fl →
      create_feature_matrix ext data = .ok rows →
      (∀ r ∈ rows, r.map Prod.fst = frame_columns fl) ∧
      (∀ pr ∈ fl.zip rows, ∀ c ∈ frame_columns fl,
        pr.1.lookup c = none → pr.2.lookup c = some 0)) ∧
    (∀ ext : TextAnalyzer,
      create_feature_matrix ext [item_zero_max] =
        .error (.zeroDivisionError "division by zero")) := by
  refine ⟨?_, ?_, ?_⟩
  · intro ext data rows h
    rcases hfl : create_features_list ext data with e | fl <;>
      simp only [create_feature_matrix, hfl] at h
    · exact Except.noConfusion h
    · injection h with h2
      subst h2
      rw [List.length_map]
      exact create_features_list_length ext data fl hfl
  · intro ext data fl rows hfl hm
    simp only [create_feature_matrix, hfl, Except.ok.injEq] at hm
    subst hm
    constructor
    · intro r hr
      obtain ⟨orig, _, rfl⟩ := List.mem_map.mp hr
      rw [List.map_map]
      exact List.map_id _
    · intro pr hpr c hc hnone
      have h2 := zip_map_self _ _ pr hpr
      rw [h2, lookup_map_pair _ _ _ hc, hnone]
      rfl
  · intro ext
    rfl

/-- C3: on a fresh `MLModels` with no `difficulty_predictor` artifact in
memory or on disk, `predict_difficulty` fails with the untyped
`KeyError('difficulty_predictor')` from `self.models[...]` — the explicit
`ValueError` meant to signal a missing model is unreachable on this path,
because `_load_model` never stores anything for a missing file. -/
theorem C3_missing_artifact_raises_keyerror :
    ∀ (α β γ : Type) (infer : α → α → α → β → γ) (features : β),
      (predict_difficulty infer ({} : MLState α) features).1 =
        .error (.keyError "difficulty_predictor") ∧
      ∀ msg : String,
        (predict_difficulty infer ({} : MLState α) features).1 ≠
          .error (.valueError msg) := by
  intro α β γ infer features
  refine ⟨rfl, fun msg h => ?_⟩
  rw [show (predict_difficulty infer ({} : MLState α) features).1 =
      .error (.keyError "difficulty_predictor") from rfl] at h
  exact PyErr.noConfusion (Except.error.inj h)

/-- C7: whenever `predict_score` succeeds, every returned value lies in
[0, 1], whatever the underlying regressor predicted. -/
theorem C7_predict_score_clipped :
    ∀ (α β : Type) (transform : α → β → β) (predictFn : α → β → List ℚ)
      (st : MLState α) (features : β) (ys : List ℚ),
      (predict_score transform predictFn st features).1 = .ok ys →
      ∀ y ∈ ys, 0 ≤ y ∧ y ≤ 1 := by
  intro α β transform predictFn st features ys h y hy
  simp only [predict_score] at h
  split at h
  · simp at h
  · split at h
    · simp at h
    · simp only [Except.ok.injEq] at h
      rw [← h] at hy
      obtain ⟨p, hp, rfl⟩ := List.mem_map.mp hy
      exact ⟨le_min (le_max_right p 0) zero_le_one, min_le_right _ 1⟩

/-- C7 witness: a regressor predicting [1.5, -0.5] on a state holding a
trained score predictor returns [1, 0], whose head is in [0, 1]. -/
theorem C7_predict_score_clipped_witness : 0 ≤ (1 : ℚ) ∧ (1 : ℚ) ≤ 1 :=
  C7_predict_score_clipped Unit Unit (fun _ b => b) (fun _ _ => [3/2, -1/2])
    score_state () [1, 0]
    (by simp [predict_score, score_state, List.lookup, min_def, max_def]
        norm_num)
    1 (by simp)

end Yinizai
